import Mathlib

/-!
A formal model of the dataset curation pipeline in
`acestep/training/dataset_builder.py`: the sample data model, tag
composition, directory scanning, the per-sample labeling state machine,
dataset save/load, and the tensor-preprocessing entry checks, together
with theorems about them.

Modelling conventions: Python strings are `String`, `Optional[T]` is
`Option T`, dict lookups with a default are `Option.getD`.  External
effects (the filesystem, torchaudio, the two engine handlers, uuid
generation) enter the model as explicit parameters describing what the
environment returns for each call; the control flow of every function is
translated branch by branch from the source.  Human-readable status
strings are modelled as tagged values, one constructor per distinct
format string of the source, so that the success/failure marker of a
status is the constructor.
-/

/-- Python `str.strip()` whitespace test (the ASCII whitespace characters
CPython strips). -/
def isPySpace (c : Char) : Bool :=
  c = ' ' || c = '\t' || c = '\n' || c = '\r' || c = '\x0b' || c = '\x0c'

/-- Python `s.strip()`: remove leading and trailing whitespace. -/
def pyStrip (s : String) : String :=
  ⟨((s.data.dropWhile isPySpace).reverse.dropWhile isPySpace).reverse⟩

/-- Python `s.startswith(p)`. -/
def pyStartsWith (s p : String) : Bool :=
  p.data.isPrefixOf s.data

/-- Python `os.path.basename`: the part of the path after the last slash. -/
def basename (p : String) : String :=
  ⟨(p.data.reverse.takeWhile (fun c => c != '/')).reverse⟩

/-- Mirrors the dataclass `AudioSample` (dataset_builder.py lines 28-63),
with the Python field defaults.  `bpm` is `Optional[int]`, `duration` an
integer number of seconds. -/
structure AudioSample where
  id : String := ""
  audio_path : String := ""
  filename : String := ""
  caption : String := ""
  lyrics : String := "[Instrumental]"
  raw_lyrics : String := ""
  formatted_lyrics : String := ""
  bpm : Option Int := none
  keyscale : String := ""
  timesignature : String := ""
  duration : Nat := 0
  language : String := "unknown"
  is_instrumental : Bool := true
  custom_tag : String := ""
  labeled : Bool := false
deriving DecidableEq, Repr

instance : Inhabited AudioSample := ⟨{}⟩

/-- `AudioSample.get_full_caption` (lines 84-103): combine `custom_tag`
with `caption` according to `tag_position`.  An empty `custom_tag` is
falsy in Python, so the caption is returned unchanged before any
position dispatch; an empty `caption` is falsy in the prepend/append
f-string guards. -/
def AudioSample.get_full_caption (s : AudioSample) (tag_position : String) : String :=
  if s.custom_tag = "" then s.caption
  else if tag_position = "prepend" then
    (if s.caption ≠ "" then s.custom_tag ++ ", " ++ s.caption else s.custom_tag)
  else if tag_position = "append" then
    (if s.caption ≠ "" then s.caption ++ ", " ++ s.custom_tag else s.custom_tag)
  else if tag_position = "replace" then s.custom_tag
  else s.caption

/-- `AudioSample.has_raw_lyrics` (lines 105-107), Python
`bool(self.raw_lyrics and self.raw_lyrics.strip())`. -/
def AudioSample.has_raw_lyrics (s : AudioSample) : Bool :=
  s.raw_lyrics != "" && pyStrip s.raw_lyrics != ""

/-- Mirrors the dataclass `DatasetMetadata` (lines 114-131) with its
Python defaults.  `created_at` is an opaque timestamp string supplied by
the environment where it matters. -/
structure DatasetMetadata where
  name : String := "untitled_dataset"
  custom_tag : String := ""
  tag_position : String := "prepend"
  created_at : String := ""
  num_samples : Nat := 0
  all_instrumental : Bool := true
deriving DecidableEq, Repr

/-- The mutable state of a `DatasetBuilder` (lines 152-156). -/
structure DatasetBuilder where
  samples : List AudioSample := []
  metadata : DatasetMetadata := {}
  current_dir : String := ""
deriving DecidableEq, Repr

/-! ### Directory scanning (lines 158-280) -/

/-- What the environment provides for one discovered audio file, in the
sorted discovery order of `scan_directory` (os.walk + extension filter +
sort, lines 180-192): the full path, the result of reading the
container's duration (`none` models a `torchaudio.info` failure), the
sidecar `.txt` file (`none`: no such file; `some none`: the file exists
but reading it raises; `some (some c)`: the file reads as `c`), and the
uuid the runtime mints for the new record. -/
structure AudioFileInfo where
  path : String
  durationInfo : Option Nat
  sidecar : Option (Option String)
  freshId : String
deriving DecidableEq, Repr

/-- `DatasetBuilder._load_lyrics_file` (lines 234-264): returns the
stripped sidecar content and whether a non-empty lyrics file was loaded;
a missing file, an unreadable file, and a whitespace-only file all yield
`("", false)`. -/
def load_lyrics_file (sidecar : Option (Option String)) : String × Bool :=
  match sidecar with
  | some (some content) =>
      let c := pyStrip content
      if c = "" then ("", false) else (c, true)
  | some none => ("", false)
  | none => ("", false)

/-- `DatasetBuilder._get_audio_duration` (lines 266-280): the integer
duration from the container info, or 0 when reading the info raises (the
exception is caught inside this helper and never propagates). -/
def get_audio_duration (durationInfo : Option Nat) : Nat :=
  durationInfo.getD 0

/-- The record built for one discovered file in the `scan_directory`
loop body (lines 198-221).  The uuid assignment models
`AudioSample.__post_init__` for a constructor call without `id`; fields
not passed to the constructor keep their dataclass defaults. -/
def scan_sample (meta : DatasetMetadata) (f : AudioFileInfo) : AudioSample :=
  let duration := get_audio_duration f.durationInfo
  let lr := load_lyrics_file f.sidecar
  let is_instrumental := if lr.2 then false else meta.all_instrumental
  { id := f.freshId
    audio_path := f.path
    filename := basename f.path
    duration := duration
    is_instrumental := is_instrumental
    custom_tag := meta.custom_tag
    lyrics := if lr.2 then lr.1 else "[Instrumental]"
    raw_lyrics := if lr.2 then lr.1 else "" }

/-- The status messages of `scan_directory`, one constructor per format
string (lines 172, 175, 189, 228-230). -/
inductive ScanStatus where
  | dirNotFound (directory : String)
  | notADirectory (directory : String)
  | noAudioFiles (directory : String)
  | found (numSamples lyricsCount : Nat)
deriving DecidableEq, Repr

/-- Result of `scan_directory`: the updated builder state plus the
returned `(samples, status)` pair. -/
structure ScanResult where
  builder : DatasetBuilder
  samples : List AudioSample
  status : ScanStatus
deriving DecidableEq, Repr

/-- `DatasetBuilder.scan_directory` (lines 158-232).  `dirExists` and
`isDir` model the two `os.path` checks; `files` is the sorted list of
discovered audio files together with what the environment returns for
each.  Nothing in the loop body can raise in this model (duration and
sidecar failures are absorbed by the helpers above, as in the source),
so the per-file `except` branch (lines 222-223) is unreachable here. -/
def scan_directory (b : DatasetBuilder) (directory : String)
    (dirExists isDir : Bool) (files : List AudioFileInfo) : ScanResult :=
  if !dirExists then ⟨b, [], .dirNotFound directory⟩
  else if !isDir then ⟨b, [], .notADirectory directory⟩
  else
    let b1 : DatasetBuilder := { b with current_dir := directory, samples := [] }
    if files.isEmpty then ⟨b1, [], .noAudioFiles directory⟩
    else
      let samples := files.map (scan_sample b.metadata)
      let lyricsCount := (files.filter (fun f => (load_lyrics_file f.sidecar).2)).length
      ⟨{ b1 with samples := samples
                 metadata := { b.metadata with num_samples := samples.length } },
       samples, .found samples.length lyricsCount⟩

/-! ### Labeling (lines 282-464) -/

/-- A value coming out of the engine's metadata dict (Python `Any`), as
far as `_parse_int` distinguishes values. -/
inductive PyVal where
  | vNone
  | vStr (s : String)
  | vInt (n : Int)
deriving DecidableEq, Repr

/-- `DatasetBuilder._parse_int` (lines 457-464): `None`, `"N/A"`, `""`
and unparsable strings become `none`. -/
def parse_int (v : PyVal) : Option Int :=
  match v with
  | .vNone => none
  | .vInt n => some n
  | .vStr s => if s = "N/A" ∨ s = "" then none else s.toInt?

/-- The metadata dict returned by
`llm_handler.understand_audio_from_codes`; each field is `none` when the
key is absent (`dict.get` then supplies the default). -/
structure LLMMetadata where
  caption : Option String := none
  bpm : PyVal := .vNone
  keyscale : Option String := none
  timesignature : Option String := none
  vocal_language : Option String := none
  lyrics : Option String := none
deriving DecidableEq, Repr

/-- `DatasetBuilder._get_audio_codes` (lines 428-455): `encodeResult` is
what `dit_handler.convert_src_audio_to_codes` returns (`none` models a
missing method or a raised exception).  A falsy (empty) or
error-marker-prefixed codes string becomes `none`. -/
def get_audio_codes (encodeResult : Option String) : Option String :=
  match encodeResult with
  | none => none
  | some s => if s != "" && !pyStartsWith s "❌" then some s else none

/-- The status messages of `label_sample`, one constructor per format
string (lines 307, 322, 335, 374-379).  `labeled` is the single success
status; its payloads record the filename and the note appended for
preloaded lyrics. -/
inductive LabelStatus where
  | invalidIndex (idx : Int)
  | encodeFailed (filename : String)
  | llmFailed (engineStatus : String)
  | labeled (filename : String) (usedPreloaded formatLyrics : Bool)
deriving DecidableEq, Repr

/-- Whether a label status carries the success marker. -/
def LabelStatus.isSuccess : LabelStatus → Bool
  | .labeled .. => true
  | _ => false

/-- Result of `label_sample`: the updated builder state plus the returned
`(sample, status)` pair (`sample = none` models the Python `None` return
on an invalid index). -/
structure LabelResult where
  builder : DatasetBuilder
  sample : Option AudioSample
  status : LabelStatus
deriving DecidableEq, Repr

/-- The commit stage of `label_sample` on the successfully returned
engine metadata (lines 337-371): overwrite the descriptive fields,
resolve the lyrics by the four-way branch on the instrumental flag and
preloaded raw lyrics, and mark the record labeled. -/
def commit_sample (sample : AudioSample) (md : LLMMetadata) (format_lyrics : Bool) : AudioSample :=
  let has_preloaded_lyrics := sample.has_raw_lyrics && !sample.is_instrumental
  let s1 : AudioSample := { sample with
    caption := md.caption.getD ""
    bpm := parse_int md.bpm
    keyscale := md.keyscale.getD ""
    timesignature := md.timesignature.getD ""
    language := md.vocal_language.getD "unknown" }
  let llm_lyrics := md.lyrics.getD ""
  let s2 : AudioSample :=
    if s1.is_instrumental then
      { s1 with lyrics := "[Instrumental]", language := "unknown", formatted_lyrics := "" }
    else if has_preloaded_lyrics then
      (if format_lyrics then
        { s1 with formatted_lyrics := llm_lyrics
                  lyrics := if llm_lyrics = "" then s1.raw_lyrics else llm_lyrics }
       else
        { s1 with lyrics := s1.raw_lyrics, formatted_lyrics := "" })
    else
      { s1 with lyrics := llm_lyrics, formatted_lyrics := llm_lyrics }
  { s2 with labeled := true }

/-- `DatasetBuilder.label_sample` (lines 282-385).  `encodeResult` is the
raw engine answer fed to `_get_audio_codes`; `understandResult` is the
`(metadata, status)` pair from the captioning engine, with `none`
modelling a falsy metadata object. -/
def label_sample (b : DatasetBuilder) (sample_idx : Int)
    (encodeResult : Option String) (understandResult : Option LLMMetadata × String)
    (format_lyrics : Bool) : LabelResult :=
  if sample_idx < 0 ∨ sample_idx ≥ (b.samples.length : Int) then
    ⟨b, none, .invalidIndex sample_idx⟩
  else
    let i := sample_idx.toNat
    let sample := b.samples.getD i {}
    let has_preloaded_lyrics := sample.has_raw_lyrics && !sample.is_instrumental
    match get_audio_codes encodeResult with
    | none => ⟨b, some sample, .encodeFailed sample.filename⟩
    | some _ =>
      match understandResult with
      | (none, engineStatus) => ⟨b, some sample, .llmFailed engineStatus⟩
      | (some md, _) =>
        let s3 := commit_sample sample md format_lyrics
        ⟨{ b with samples := b.samples.set i s3 }, some s3,
         .labeled s3.filename has_preloaded_lyrics format_lyrics⟩

/-! ### Sample editing and bulk setters (lines 466-513) -/

/-- The keyword arguments of `update_sample`, one optional slot per
`AudioSample` field; a `none` slot is a keyword that was not passed (or
an unknown keyword, which the `hasattr` guard ignores). -/
structure SampleUpdate where
  id : Option String := none
  audio_path : Option String := none
  filename : Option String := none
  caption : Option String := none
  lyrics : Option String := none
  raw_lyrics : Option String := none
  formatted_lyrics : Option String := none
  bpm : Option (Option Int) := none
  keyscale : Option String := none
  timesignature : Option String := none
  duration : Option Nat := none
  language : Option String := none
  is_instrumental : Option Bool := none
  custom_tag : Option String := none
  labeled : Option Bool := none
deriving DecidableEq, Repr

/-- The `setattr` loop of `update_sample` (lines 481-483). -/
def applyUpdate (s : AudioSample) (u : SampleUpdate) : AudioSample :=
  { id := u.id.getD s.id
    audio_path := u.audio_path.getD s.audio_path
    filename := u.filename.getD s.filename
    caption := u.caption.getD s.caption
    lyrics := u.lyrics.getD s.lyrics
    raw_lyrics := u.raw_lyrics.getD s.raw_lyrics
    formatted_lyrics := u.formatted_lyrics.getD s.formatted_lyrics
    bpm := u.bpm.getD s.bpm
    keyscale := u.keyscale.getD s.keyscale
    timesignature := u.timesignature.getD s.timesignature
    duration := u.duration.getD s.duration
    language := u.language.getD s.language
    is_instrumental := u.is_instrumental.getD s.is_instrumental
    custom_tag := u.custom_tag.getD s.custom_tag
    labeled := u.labeled.getD s.labeled }

/-- The status messages of `update_sample` (lines 477, 486). -/
inductive UpdateStatus where
  | invalidIndex (idx : Int)
  | updated (filename : String)
deriving DecidableEq, Repr

/-- Result of `update_sample`: the updated builder state plus the
returned `(sample, status)` pair. -/
structure UpdateResult where
  builder : DatasetBuilder
  sample : Option AudioSample
  status : UpdateStatus
deriving DecidableEq, Repr

/-- `DatasetBuilder.update_sample` (lines 466-486). -/
def update_sample (b : DatasetBuilder) (sample_idx : Int) (u : SampleUpdate) : UpdateResult :=
  if sample_idx < 0 ∨ sample_idx ≥ (b.samples.length : Int) then
    ⟨b, none, .invalidIndex sample_idx⟩
  else
    let i := sample_idx.toNat
    let s := applyUpdate (b.samples.getD i {}) u
    ⟨{ b with samples := b.samples.set i s }, some s, .updated s.filename⟩

/-- `DatasetBuilder.set_custom_tag` (lines 488-499): store the tag and
position in the metadata and overwrite every sample's `custom_tag`. -/
def set_custom_tag (b : DatasetBuilder) (tag tag_position : String) : DatasetBuilder :=
  { b with metadata := { b.metadata with custom_tag := tag, tag_position := tag_position }
           samples := b.samples.map (fun s => { s with custom_tag := tag }) }

/-- `DatasetBuilder.set_all_instrumental` (lines 501-513): store the flag
and overwrite every sample's `is_instrumental`, forcing the sentinel
lyrics and language when the flag is true. -/
def set_all_instrumental (b : DatasetBuilder) (flag : Bool) : DatasetBuilder :=
  { b with metadata := { b.metadata with all_instrumental := flag }
           samples := b.samples.map (fun s =>
             if flag then
               { s with is_instrumental := true, lyrics := "[Instrumental]", language := "unknown" }
             else
               { s with is_instrumental := false }) }

/-! ### Save / load (lines 523-604)

A sample object inside the JSON document carries exactly the fifteen
`AudioSample` keys (written by `to_dict`), so it is modelled by
`AudioSample` itself; a key absent from an older document behaves under
`from_dict` exactly like the field's dataclass default, which the model
expresses by the same value.  JSON round-trips strings, integers,
booleans and null faithfully. -/

/-- The JSON document written by `save_dataset` / read by
`load_dataset`. -/
structure SavedDataset where
  metadata : DatasetMetadata
  samples : List AudioSample
deriving DecidableEq, Repr

/-- `DatasetBuilder.save_dataset` (lines 523-564): refresh `name` (only
for a truthy `dataset_name`), `num_samples` and `created_at`, then write
the document in which each sample's `caption` is replaced by its
tag-composed value.  Returns `none` and leaves the state untouched when
there are no samples; `now` is the timestamp the environment supplies.
A write failure after this point only affects the status string, not the
document contents, and is not modelled. -/
def save_dataset (b : DatasetBuilder) (now : String) (dataset_name : Option String) :
    Option SavedDataset × DatasetBuilder :=
  if b.samples.isEmpty then (none, b)
  else
    let m0 := match dataset_name with
      | some n => if n = "" then b.metadata else { b.metadata with name := n }
      | none => b.metadata
    let meta := { m0 with num_samples := b.samples.length, created_at := now }
    (some ⟨meta, b.samples.map (fun s => { s with caption := s.get_full_caption meta.tag_position })⟩,
     { b with metadata := meta })

/-- `AudioSample.from_dict` (lines 73-82) composed with
`__post_init__` (lines 65-67): all recognized keys are taken from the
dict, and an empty (or absent) `id` is replaced by a fresh uuid. -/
def AudioSample.from_dict (fresh : String) (d : AudioSample) : AudioSample :=
  { d with id := if d.id = "" then fresh else d.id }

/-- The sample-loading loop of `load_dataset` (lines 595-598); `fresh i`
is the uuid the runtime would mint for the i-th record. -/
def load_samples (fresh : Nat → String) : Nat → List AudioSample → List AudioSample
  | _, [] => []
  | i, d :: ds => AudioSample.from_dict (fresh i) d :: load_samples fresh (i + 1) ds

/-- `DatasetBuilder.load_dataset` (lines 566-604) on an existing,
well-formed document: replace the metadata and the sample list, and
return the loaded samples. -/
def load_dataset (b : DatasetBuilder) (doc : SavedDataset) (fresh : Nat → String) :
    DatasetBuilder × List AudioSample :=
  let samples := load_samples fresh 0 doc.samples
  ({ b with metadata := doc.metadata, samples := samples }, samples)

/-! ### Tensor preprocessing entry checks (lines 652-862) -/

/-- The environment of one `preprocess_to_tensors` call:
`handlerInitialized` models `dit_handler is not None and dit_handler.model
is not None`; `sampleFails s` tells whether the per-sample tensor work for
`s` raises (audio load, encode, or file write). -/
structure PreprocessEnv where
  handlerInitialized : Bool
  sampleFails : AudioSample → Bool

/-- The status messages of `preprocess_to_tensors`, one constructor per
format string (lines 676, 680, 684, 858-860). -/
inductive PreprocessStatus where
  | noSamples
  | noLabeledSamples
  | modelNotInitialized
  | preprocessed (successCount totalLabeled failCount : Nat)
deriving DecidableEq, Repr

/-- Whether a preprocessing status carries the success marker. -/
def PreprocessStatus.isSuccess : PreprocessStatus → Bool
  | .preprocessed .. => true
  | _ => false

/-- Result of `preprocess_to_tensors`: the returned output-path list and
status, plus every file path the call wrote (tensor bundles and, when
reached, the manifest). -/
structure PreprocessResult where
  output_paths : List String
  status : PreprocessStatus
  writtenFiles : List String
deriving DecidableEq, Repr

/-- `DatasetBuilder.preprocess_to_tensors` (lines 652-862), at the level
of its entry checks and its output-file bookkeeping: the three fail-fast
guards return before anything is written; otherwise each labeled sample
whose tensor work succeeds contributes `output_dir/id.pt`, and the
manifest is written after the loop unconditionally. -/
def preprocess_to_tensors (b : DatasetBuilder) (env : PreprocessEnv)
    (output_dir : String) : PreprocessResult :=
  if b.samples.isEmpty then ⟨[], .noSamples, []⟩
  else
    let labeled_samples := b.samples.filter (fun s => s.labeled)
    if labeled_samples.isEmpty then ⟨[], .noLabeledSamples, []⟩
    else if !env.handlerInitialized then ⟨[], .modelNotInitialized, []⟩
    else
      let ok := labeled_samples.filter (fun s => !env.sampleFails s)
      let output_paths := ok.map (fun s => output_dir ++ "/" ++ s.id ++ ".pt")
      ⟨output_paths,
       .preprocessed ok.length labeled_samples.length (labeled_samples.length - ok.length),
       output_paths ++ [output_dir ++ "/manifest.json"]⟩

/-- The instrumental data-model invariant of the spec: an instrumental
record carries the sentinel lyrics and the sentinel language. -/
def instr_invariant (s : AudioSample) : Prop :=
  s.is_instrumental = true → (s.lyrics = "[Instrumental]" ∧ s.language = "unknown")

instance (s : AudioSample) : Decidable (instr_invariant s) := by
  unfold instr_invariant; infer_instance

/-! ### Concrete states used to instantiate the theorems -/

/-- A scanned-then-edited record: instrumental, with a caption, a custom
tag and a 10-second duration. -/
def rockSample : AudioSample :=
  { id := "ab12cd34", audio_path := "/data/ballad.wav", filename := "ballad.wav",
    caption := "ballad", custom_tag := "Rock", duration := 10 }

/-- A one-sample dataset state. -/
def rockBuilder : DatasetBuilder :=
  { samples := [rockSample], metadata := { custom_tag := "Rock", tag_position := "prepend" } }

/-- A well-formed metadata object returned by the captioning engine. -/
def mdEx : LLMMetadata :=
  { caption := some "soft rock", bpm := .vInt 120, keyscale := some "C Major",
    timesignature := some "4", vocal_language := some "en", lyrics := some "la la" }

/-- A preprocessing environment with an initialized handler in which no
per-sample tensor work fails. -/
def envEx : PreprocessEnv := ⟨true, fun _ => false⟩

/-- A discovered audio file with a readable, non-empty sidecar. -/
def fileLyr : AudioFileInfo := ⟨"/d/a.wav", some 10, some (some " la la "), "aa111111"⟩

/-- A discovered audio file without a sidecar. -/
def fileNoLyr : AudioFileInfo := ⟨"/d/b.wav", some 10, none, "bb222222"⟩

/-- A discovery list whose first file has an unreadable container. -/
def scanFilesEx : List AudioFileInfo :=
  [⟨"/d/a.wav", none, none, "cc111111"⟩, fileNoLyr]

/-- A one-sample dataset state whose record satisfies the instrumental
invariant. -/
def instrBuilderEx : DatasetBuilder :=
  { samples := [{ id := "dd333333", filename := "c.wav" }] }

/-- C1 counterexample: with an empty `custom_tag` and `tag_position =
"replace"`, `get_full_caption` returns the caption unchanged (the code
returns early on a falsy tag, line 93-94), not the tag verbatim as the
claim states. -/
theorem C1_replace_empty_tag_counterexample :
    ({ caption := "ballad", custom_tag := "" } : AudioSample).get_full_caption "replace" = "ballad" ∧
    ({ caption := "ballad", custom_tag := "" } : AudioSample).get_full_caption "replace" ≠
      ({ caption := "ballad", custom_tag := "" } : AudioSample).custom_tag := by
  decide

/-- C1 (amended): tag composition.  `prepend` yields `"{tag}, {caption}"`
when both are non-empty, else whichever is non-empty, else empty;
`append` symmetrically; `replace` yields the tag verbatim when the tag is
non-empty, and the caption unchanged when the tag is empty (the empty-tag
early return applies to every position); any other position yields the
caption unchanged. -/
theorem C1_tag_composition (s : AudioSample) (pos : String) :
    (pos = "prepend" →
      s.get_full_caption pos =
        (if s.custom_tag ≠ "" ∧ s.caption ≠ "" then s.custom_tag ++ ", " ++ s.caption
         else if s.custom_tag ≠ "" then s.custom_tag
         else s.caption)) ∧
    (pos = "append" →
      s.get_full_caption pos =
        (if s.custom_tag ≠ "" ∧ s.caption ≠ "" then s.caption ++ ", " ++ s.custom_tag
         else if s.custom_tag ≠ "" then s.custom_tag
         else s.caption)) ∧
    (pos = "replace" →
      s.get_full_caption pos =
        (if s.custom_tag ≠ "" then s.custom_tag else s.caption)) ∧
    (pos ≠ "prepend" → pos ≠ "append" → pos ≠ "replace" →
      s.get_full_caption pos = s.caption) := by
  unfold AudioSample.get_full_caption
  refine ⟨?_, ?_, ?_, ?_⟩ <;> intros <;> subst_vars <;> split_ifs <;> simp_all

/-- C1 amended-claim witness: the amended composition rule evaluated at
the spec's own example (`custom_tag="Rock"`, `caption="ballad"`). -/
theorem C1_tag_composition_witness :
    ({ caption := "ballad", custom_tag := "Rock" } : AudioSample).get_full_caption "prepend" =
      "Rock, ballad" :=
  ((C1_tag_composition { caption := "ballad", custom_tag := "Rock" } "prepend").1 rfl).trans
    (by decide)

/-! ### Helper lemmas -/

/-- `commit_sample` never touches the duration field. -/
theorem commit_sample_duration (s : AudioSample) (md : LLMMetadata) (fmt : Bool) :
    (commit_sample s md fmt).duration = s.duration := by
  simp only [commit_sample]
  split_ifs <;> rfl

/-- `commit_sample` marks the record labeled. -/
theorem commit_sample_labeled (s : AudioSample) (md : LLMMetadata) (fmt : Bool) :
    (commit_sample s md fmt).labeled = true := by
  simp only [commit_sample]

/-- `commit_sample` never touches the instrumental flag. -/
theorem commit_sample_is_instrumental (s : AudioSample) (md : LLMMetadata) (fmt : Bool) :
    (commit_sample s md fmt).is_instrumental = s.is_instrumental := by
  simp only [commit_sample]
  split_ifs <;> rfl

/-- On an instrumental record, `commit_sample` forces the sentinel
lyrics, the sentinel language, and empty formatted lyrics. -/
theorem commit_sample_instr (s : AudioSample) (md : LLMMetadata) (fmt : Bool)
    (h : s.is_instrumental = true) :
    (commit_sample s md fmt).lyrics = "[Instrumental]" ∧
    (commit_sample s md fmt).language = "unknown" ∧
    (commit_sample s md fmt).formatted_lyrics = "" := by
  simp only [commit_sample]
  rw [if_pos]
  · exact ⟨rfl, rfl, rfl⟩
  · exact h

/-- Every record produced by `commit_sample` satisfies the instrumental
invariant. -/
theorem commit_sample_invariant (s : AudioSample) (md : LLMMetadata) (fmt : Bool) :
    instr_invariant (commit_sample s md fmt) := by
  unfold instr_invariant
  intro h
  rw [commit_sample_is_instrumental] at h
  exact ⟨(commit_sample_instr s md fmt h).1, (commit_sample_instr s md fmt h).2.1⟩

/-- Complete case analysis of `label_sample`: invalid index, encode
failure, understand failure, or full success. -/
theorem label_sample_spec (b : DatasetBuilder) (idx : Int) (enc : Option String)
    (und : Option LLMMetadata × String) (fmt : Bool) :
    ((idx < 0 ∨ idx ≥ (b.samples.length : Int)) ∧
       label_sample b idx enc und fmt = ⟨b, none, .invalidIndex idx⟩) ∨
    (¬(idx < 0 ∨ idx ≥ (b.samples.length : Int)) ∧ get_audio_codes enc = none ∧
       label_sample b idx enc und fmt =
         ⟨b, some (b.samples.getD idx.toNat {}),
          .encodeFailed (b.samples.getD idx.toNat {}).filename⟩) ∨
    (¬(idx < 0 ∨ idx ≥ (b.samples.length : Int)) ∧ get_audio_codes enc ≠ none ∧ und.1 = none ∧
       label_sample b idx enc und fmt =
         ⟨b, some (b.samples.getD idx.toNat {}), .llmFailed und.2⟩) ∨
    (¬(idx < 0 ∨ idx ≥ (b.samples.length : Int)) ∧ get_audio_codes enc ≠ none ∧
       ∃ md, und.1 = some md ∧
         label_sample b idx enc und fmt =
           ⟨{ b with samples := (b.samples.set idx.toNat
                (commit_sample (b.samples.getD idx.toNat {}) md fmt)) },
            some (commit_sample (b.samples.getD idx.toNat {}) md fmt),
            .labeled (commit_sample (b.samples.getD idx.toNat {}) md fmt).filename
              ((b.samples.getD idx.toNat {}).has_raw_lyrics &&
                !(b.samples.getD idx.toNat {}).is_instrumental) fmt⟩) := by
  by_cases hidx : idx < 0 ∨ idx ≥ (b.samples.length : Int)
  · exact Or.inl ⟨hidx, by rw [label_sample, if_pos hidx]⟩
  · cases hc : get_audio_codes enc with
    | none =>
        refine Or.inr (Or.inl ⟨hidx, rfl, ?_⟩)
        rw [label_sample, if_neg hidx]
        simp only [hc]
    | some c =>
        obtain ⟨md?, st⟩ := und
        cases md? with
        | none =>
            refine Or.inr (Or.inr (Or.inl ⟨hidx, by simp, rfl, ?_⟩))
            rw [label_sample, if_neg hidx]
            simp only [hc]
        | some md =>
            refine Or.inr (Or.inr (Or.inr ⟨hidx, by simp, md, rfl, ?_⟩))
            rw [label_sample, if_neg hidx]
            simp only [hc]

/-- On an existing directory with a non-empty discovery list, the scanned
collection is exactly one record per discovered file, in order. -/
theorem scan_directory_samples (b : DatasetBuilder) (dir : String)
    (files : List AudioFileInfo) (h : files.isEmpty = false) :
    (scan_directory b dir true true files).samples = files.map (scan_sample b.metadata) ∧
    (scan_directory b dir true true files).builder.samples = files.map (scan_sample b.metadata) := by
  rw [scan_directory]
  simp [h]

/-- Every record built by the scan loop satisfies the instrumental
invariant: a record with a loaded lyrics file is not instrumental, and
any other record keeps the sentinel lyrics and language defaults. -/
theorem scan_sample_invariant (meta : DatasetMetadata) (f : AudioFileInfo) :
    instr_invariant (scan_sample meta f) := by
  unfold instr_invariant scan_sample
  cases hl : (load_lyrics_file f.sidecar).2 <;> simp [hl]

/-- A non-empty save produces a document. -/
theorem save_dataset_some (b : DatasetBuilder) (now : String) (dataset_name : Option String)
    (h : b.samples.isEmpty = false) :
    ∃ doc, (save_dataset b now dataset_name).1 = some doc := by
  rw [save_dataset.eq_def, if_neg (by simp [h])]
  exact ⟨_, rfl⟩

/-- The samples section of a saved document: each record verbatim, with
the caption replaced by its tag-composed value under the dataset's
`tag_position` (which the save never changes). -/
theorem save_dataset_doc (b : DatasetBuilder) (now : String) (dataset_name : Option String)
    (doc : SavedDataset) (h : (save_dataset b now dataset_name).1 = some doc) :
    doc.samples = b.samples.map
      (fun s => { s with caption := s.get_full_caption b.metadata.tag_position }) := by
  rw [save_dataset.eq_def] at h
  by_cases he : b.samples.isEmpty
  · simp [he] at h
  · rw [if_neg he] at h
    cases dataset_name with
    | none =>
        obtain rfl := Option.some.inj h
        rfl
    | some n =>
        by_cases hn : n = ""
        · subst hn
          obtain rfl := Option.some.inj h
          rfl
        · simp only [if_neg hn] at h
          obtain rfl := Option.some.inj h
          rfl

/-- `from_dict` leaves a record with a non-empty id unchanged. -/
theorem from_dict_of_id_ne (fresh : String) (d : AudioSample) (h : d.id ≠ "") :
    AudioSample.from_dict fresh d = d := by
  cases d
  simp_all [AudioSample.from_dict]

/-- Loading a list of records whose ids are all non-empty reproduces the
list verbatim. -/
theorem load_samples_eq_self (fresh : Nat → String) (i : Nat) (l : List AudioSample)
    (h : ∀ d ∈ l, d.id ≠ "") : load_samples fresh i l = l := by
  induction l generalizing i with
  | nil => rfl
  | cons d ds ih =>
      rw [load_samples, from_dict_of_id_ne _ _ (h d (List.mem_cons_self d ds)),
        ih _ (fun x hx => h x (List.mem_cons_of_mem d hx))]

/-- Every record produced by the loading loop comes from a document
record by a `from_dict` call. -/
theorem mem_load_samples (fresh : Nat → String) (i : Nat) (l : List AudioSample)
    (s : AudioSample) (hs : s ∈ load_samples fresh i l) :
    ∃ d ∈ l, ∃ j, s = AudioSample.from_dict (fresh j) d := by
  induction l generalizing i with
  | nil => cases hs
  | cons d ds ih =>
      rw [load_samples] at hs
      rcases List.mem_cons.mp hs with h | h
      · exact ⟨d, List.mem_cons_self d ds, i, h⟩
      · obtain ⟨d2, hd2, j, hj⟩ := ih (i + 1) h
        exact ⟨d2, List.mem_cons_of_mem d hd2, j, hj⟩

/-- `from_dict` only touches the id, so it preserves the instrumental
invariant. -/
theorem from_dict_invariant (fresh : String) (d : AudioSample) (h : instr_invariant d) :
    instr_invariant (AudioSample.from_dict fresh d) := by
  unfold instr_invariant AudioSample.from_dict at *
  simpa using h

/-- `applyUpdate` with no `lyrics`, `language` or `is_instrumental`
keyword leaves those three fields unchanged. -/
theorem applyUpdate_untouched (s : AudioSample) (u : SampleUpdate)
    (hl : u.lyrics = none) (hg : u.language = none) (hi : u.is_instrumental = none) :
    (applyUpdate s u).lyrics = s.lyrics ∧ (applyUpdate s u).language = s.language ∧
    (applyUpdate s u).is_instrumental = s.is_instrumental := by
  simp [applyUpdate, hl, hg, hi]

/-! ### Claim theorems -/

/-- C2: for every dataset with at least one sample (and, as everywhere in
the program, records carrying the id assigned at creation), saving with
`save_dataset` and loading the written document reproduces every field of
every record except `caption`, which in the loaded record equals the
tag-composed `get_full_caption (tag_position)` of the original record. -/
theorem C2_save_load_round_trip (b b2 : DatasetBuilder) (now : String)
    (dataset_name : Option String) (fresh : Nat → String)
    (hne : b.samples.isEmpty = false) (hids : ∀ s ∈ b.samples, s.id ≠ "") :
    ∃ doc, (save_dataset b now dataset_name).1 = some doc ∧
      (load_dataset b2 doc fresh).2 =
        b.samples.map (fun s => { s with caption := s.get_full_caption b.metadata.tag_position }) := by
  obtain ⟨doc, hdoc⟩ := save_dataset_some b now dataset_name hne
  refine ⟨doc, hdoc, ?_⟩
  have hs := save_dataset_doc b now dataset_name doc hdoc
  show load_samples fresh 0 doc.samples = _
  rw [hs, load_samples_eq_self]
  intro d hd
  rw [List.mem_map] at hd
  obtain ⟨s, hsmem, rfl⟩ := hd
  exact hids s hsmem

/-- C2 witness: the round trip evaluated on a concrete one-sample
dataset. -/
theorem C2_save_load_round_trip_witness :
    ∃ doc, (save_dataset rockBuilder "2026-01-01" none).1 = some doc ∧
      (load_dataset {} doc (fun _ => "ee555555")).2 =
        rockBuilder.samples.map
          (fun s => { s with caption := s.get_full_caption rockBuilder.metadata.tag_position }) :=
  C2_save_load_round_trip rockBuilder {} "2026-01-01" none (fun _ => "ee555555")
    (by decide) (by decide)

/-- C3: after a successful `label_sample` call on an instrumental record,
the returned record has the sentinel lyrics, the sentinel language, and
empty formatted lyrics, whatever metadata the captioning engine
returned. -/
theorem C3_instrumental_forced (b : DatasetBuilder) (idx : Int) (enc : Option String)
    (und : Option LLMMetadata × String) (fmt : Bool)
    (hsucc : (label_sample b idx enc und fmt).status.isSuccess = true)
    (hinstr : (b.samples.getD idx.toNat {}).is_instrumental = true) :
    ∃ s, (label_sample b idx enc und fmt).sample = some s ∧
      s.lyrics = "[Instrumental]" ∧ s.language = "unknown" ∧ s.formatted_lyrics = "" := by
  rcases label_sample_spec b idx enc und fmt with
    ⟨_, heq⟩ | ⟨_, _, heq⟩ | ⟨_, _, _, heq⟩ | ⟨_, _, md, _, heq⟩ <;> rw [heq] at hsucc ⊢
  · simp [LabelStatus.isSuccess] at hsucc
  · simp [LabelStatus.isSuccess] at hsucc
  · simp [LabelStatus.isSuccess] at hsucc
  · obtain ⟨h1, h2, h3⟩ := commit_sample_instr (b.samples.getD idx.toNat {}) md fmt hinstr
    exact ⟨_, rfl, h1, h2, h3⟩

/-- C3 witness: labeling the concrete instrumental sample with a
successful engine run. -/
theorem C3_instrumental_forced_witness :
    ∃ s, (label_sample rockBuilder 0 (some "codes") (some mdEx, "ok") false).sample = some s ∧
      s.lyrics = "[Instrumental]" ∧ s.language = "unknown" ∧ s.formatted_lyrics = "" :=
  C3_instrumental_forced rockBuilder 0 (some "codes") (some mdEx, "ok") false
    (by decide) (by decide)

/-- C4: a discovered audio file with a readable sidecar whose content is
non-empty after stripping yields a record with `is_instrumental = false`
and both `raw_lyrics` and `lyrics` equal to the stripped content,
regardless of the dataset's `all_instrumental` default; a file with no
sidecar, or a sidecar that is empty after stripping, yields the sentinel
lyrics, empty `raw_lyrics`, and the dataset's default flag. -/
theorem C4_sidecar_lyrics (b : DatasetBuilder) (dir : String) (files : List AudioFileInfo)
    (i : Nat) (f : AudioFileInfo) (hf : files[i]? = some f) :
    ∃ s, (scan_directory b dir true true files).samples[i]? = some s ∧
      (∀ c, f.sidecar = some (some c) → pyStrip c ≠ "" →
         s.is_instrumental = false ∧ s.raw_lyrics = pyStrip c ∧ s.lyrics = pyStrip c) ∧
      ((f.sidecar = none ∨ ∃ c, f.sidecar = some (some c) ∧ pyStrip c = "") →
         s.lyrics = "[Instrumental]" ∧ s.raw_lyrics = "" ∧
         s.is_instrumental = b.metadata.all_instrumental) := by
  have hne : files.isEmpty = false := by
    cases files
    · simp at hf
    · rfl
  have hsam := (scan_directory_samples b dir files hne).1
  refine ⟨scan_sample b.metadata f, ?_, ?_, ?_⟩
  · rw [hsam, List.getElem?_map, hf]
    rfl
  · intro c hc hcne
    have h2 : load_lyrics_file f.sidecar = (pyStrip c, true) := by
      rw [hc]
      simp [load_lyrics_file, hcne]
    simp [scan_sample, h2]
  · intro hcase
    have h2 : load_lyrics_file f.sidecar = ("", false) := by
      rcases hcase with h | ⟨c, hc, hce⟩
      · rw [h]
        rfl
      · rw [hc]
        simp [load_lyrics_file, hce]
    simp [scan_sample, h2]

/-- C4 witness: scanning one file whose sidecar reads `" la la "`. -/
theorem C4_sidecar_lyrics_witness :
    ∃ s, (scan_directory {} "/d" true true [fileLyr]).samples[0]? = some s ∧
      s.is_instrumental = false ∧ s.raw_lyrics = pyStrip " la la " ∧
      s.lyrics = pyStrip " la la " := by
  obtain ⟨s, hs, h1, _⟩ := C4_sidecar_lyrics {} "/d" [fileLyr] 0 fileLyr rfl
  exact ⟨s, hs, h1 " la la " rfl (by decide)⟩

/-- C5: labeling is atomic.  Whenever the status is not the success
status, the collection is unchanged; an encode-stage failure or an
understand-stage failure on a valid index returns the original record
verbatim (no partial commit of any field) with the corresponding failure
status; and the success status implies both stages succeeded and the
returned record is marked labeled. -/
theorem C5_label_atomicity (b : DatasetBuilder) (idx : Int) (enc : Option String)
    (und : Option LLMMetadata × String) (fmt : Bool) :
    ((label_sample b idx enc und fmt).status.isSuccess = false →
       (label_sample b idx enc und fmt).builder = b) ∧
    (¬(idx < 0 ∨ idx ≥ (b.samples.length : Int)) → get_audio_codes enc = none →
       label_sample b idx enc und fmt =
         ⟨b, some (b.samples.getD idx.toNat {}),
          .encodeFailed (b.samples.getD idx.toNat {}).filename⟩) ∧
    (¬(idx < 0 ∨ idx ≥ (b.samples.length : Int)) → get_audio_codes enc ≠ none → und.1 = none →
       label_sample b idx enc und fmt =
         ⟨b, some (b.samples.getD idx.toNat {}), .llmFailed und.2⟩) ∧
    ((label_sample b idx enc und fmt).status.isSuccess = true →
       get_audio_codes enc ≠ none ∧ und.1 ≠ none ∧
       ∃ s, (label_sample b idx enc und fmt).sample = some s ∧ s.labeled = true) := by
  rcases label_sample_spec b idx enc und fmt with
    ⟨hidx, heq⟩ | ⟨hidx, hc, heq⟩ | ⟨hidx, hc, hu, heq⟩ | ⟨hidx, hc, md, hmd, heq⟩ <;> rw [heq]
  · exact ⟨fun _ => rfl, fun h _ => absurd hidx h, fun h _ _ => absurd hidx h,
      fun hs => by simp [LabelStatus.isSuccess] at hs⟩
  · exact ⟨fun _ => rfl, fun _ _ => rfl, fun _ hcn _ => absurd hc hcn,
      fun hs => by simp [LabelStatus.isSuccess] at hs⟩
  · exact ⟨fun _ => rfl, fun _ hcn => absurd hcn (by simp [hc]), fun _ _ _ => rfl,
      fun hs => by simp [LabelStatus.isSuccess] at hs⟩
  · refine ⟨?_, ?_, ?_, ?_⟩
    · intro hs
      simp [LabelStatus.isSuccess] at hs
    · intro _ hcn
      exact absurd hcn (by simp [hc])
    · intro _ _ hu
      rw [hmd] at hu
      cases hu
    · intro _
      exact ⟨hc, by rw [hmd]; simp, _, rfl, commit_sample_labeled _ md fmt⟩

/-- C5 witness: an encode-stage failure on the concrete dataset leaves
the record unchanged and reports the encode-failure status. -/
theorem C5_label_atomicity_witness :
    label_sample rockBuilder 0 none (some mdEx, "ok") false =
      ⟨rockBuilder, some (rockBuilder.samples.getD (0 : Int).toNat {}),
       .encodeFailed (rockBuilder.samples.getD (0 : Int).toNat {}).filename⟩ :=
  (C5_label_atomicity rockBuilder 0 none (some mdEx, "ok") false).2.1 (by decide) rfl

/-- C6: a successful `label_sample` call never changes the duration
field, whatever the captioning engine returned. -/
theorem C6_label_preserves_duration (b : DatasetBuilder) (idx : Int) (enc : Option String)
    (und : Option LLMMetadata × String) (fmt : Bool)
    (hsucc : (label_sample b idx enc und fmt).status.isSuccess = true) :
    ∃ s, (label_sample b idx enc und fmt).sample = some s ∧
      s.duration = (b.samples.getD idx.toNat {}).duration := by
  rcases label_sample_spec b idx enc und fmt with
    ⟨_, heq⟩ | ⟨_, _, heq⟩ | ⟨_, _, _, heq⟩ | ⟨_, _, md, _, heq⟩ <;> rw [heq] at hsucc ⊢
  · simp [LabelStatus.isSuccess] at hsucc
  · simp [LabelStatus.isSuccess] at hsucc
  · simp [LabelStatus.isSuccess] at hsucc
  · exact ⟨_, rfl, commit_sample_duration _ md fmt⟩

/-- C6 witness: the 10-second concrete sample still has duration 10
after a successful labeling run. -/
theorem C6_label_preserves_duration_witness :
    ∃ s, (label_sample rockBuilder 0 (some "codes") (some mdEx, "ok") false).sample = some s ∧
      s.duration = rockSample.duration :=
  C6_label_preserves_duration rockBuilder 0 (some "codes") (some mdEx, "ok") false (by decide)

/-- C7 counterexample: scanning two files of which the first has an
unreadable container produces two records, the first of them for the
unreadable file with duration 0 — the file is not skipped as the claim
states (`_get_audio_duration` swallows the failure and returns 0, lines
278-280). -/
theorem C7_skip_counterexample :
    (scan_directory {} "/d" true true scanFilesEx).samples.length = 2 ∧
    (scan_directory {} "/d" true true scanFilesEx).samples[0]? =
      some { id := "cc111111", audio_path := "/d/a.wav", filename := "a.wav",
             duration := 0 } := by
  decide

/-- C7 (amended): a duration/container read failure is logged inside
`_get_audio_duration` and does not skip the file: the scan still
produces exactly one record per discovered file, and the record of a
file whose metadata cannot be read has duration 0. -/
theorem C7_duration_failure_not_skipped (b : DatasetBuilder) (dir : String)
    (files : List AudioFileInfo) (i : Nat) (f : AudioFileInfo)
    (hf : files[i]? = some f) (hdur : f.durationInfo = none) :
    (scan_directory b dir true true files).samples.length = files.length ∧
    ∃ s, (scan_directory b dir true true files).samples[i]? = some s ∧
      s.duration = 0 ∧ s.audio_path = f.path := by
  have hne : files.isEmpty = false := by
    cases files
    · simp at hf
    · rfl
  have hsam := (scan_directory_samples b dir files hne).1
  rw [hsam]
  refine ⟨by simp, scan_sample b.metadata f, ?_, ?_, rfl⟩
  · rw [List.getElem?_map, hf]
    rfl
  · simp [scan_sample, get_audio_duration, hdur]

/-- C7 amended-claim witness: the concrete two-file scan with an
unreadable first container. -/
theorem C7_duration_failure_not_skipped_witness :
    (scan_directory {} "/d" true true scanFilesEx).samples.length = scanFilesEx.length ∧
    ∃ s, (scan_directory {} "/d" true true scanFilesEx).samples[0]? = some s ∧
      s.duration = 0 ∧ s.audio_path = "/d/a.wav" :=
  C7_duration_failure_not_skipped {} "/d" scanFilesEx 0
    ⟨"/d/a.wav", none, none, "cc111111"⟩ rfl rfl

/-- C8: `preprocess_to_tensors` fails fast.  With no samples, no labeled
samples, or an uninitialized backend, it returns an empty output list
and a failure status, and writes nothing at all — in particular no
manifest file. -/
theorem C8_preprocess_fail_fast (b : DatasetBuilder) (env : PreprocessEnv) (output_dir : String)
    (h : b.samples.isEmpty = true ∨ (b.samples.filter (fun s => s.labeled)).isEmpty = true ∨
         env.handlerInitialized = false) :
    (preprocess_to_tensors b env output_dir).output_paths = [] ∧
    (preprocess_to_tensors b env output_dir).status.isSuccess = false ∧
    (preprocess_to_tensors b env output_dir).writtenFiles = [] := by
  rw [preprocess_to_tensors]
  rcases h with h | h | h
  · simp [h, PreprocessStatus.isSuccess]
  · by_cases h0 : b.samples.isEmpty <;>
      simp [h0, h, PreprocessStatus.isSuccess]
  · by_cases h0 : b.samples.isEmpty
    · simp [h0, PreprocessStatus.isSuccess]
    · by_cases h1 : (b.samples.filter (fun s => s.labeled)).isEmpty <;>
        simp [h0, h1, h, PreprocessStatus.isSuccess]

/-- C8 witness: preprocessing the concrete dataset, whose only sample is
unlabeled, with an initialized backend. -/
theorem C8_preprocess_fail_fast_witness :
    (preprocess_to_tensors rockBuilder envEx "/out").output_paths = [] ∧
    (preprocess_to_tensors rockBuilder envEx "/out").status.isSuccess = false ∧
    (preprocess_to_tensors rockBuilder envEx "/out").writtenFiles = [] :=
  C8_preprocess_fail_fast rockBuilder envEx "/out" (Or.inr (Or.inl (by decide)))

/-- C9 counterexample: `update_sample` does not preserve the
instrumental invariant — overwriting `lyrics` on an instrumental record
(lines 481-483 set any recognized field without re-establishing the
invariant) leaves `is_instrumental = true` with non-sentinel lyrics. -/
theorem C9_update_counterexample :
    (∀ s ∈ instrBuilderEx.samples, instr_invariant s) ∧
    ¬ (∀ s ∈ (update_sample instrBuilderEx 0 { lyrics := some "la la" }).builder.samples,
        instr_invariant s) := by
  decide

/-- C9 (amended): the instrumental invariant is established by
`scan_directory` and `set_all_instrumental`, and preserved by
`label_sample` and `set_custom_tag`; `update_sample` preserves it only
when the update touches none of `lyrics`, `language`, `is_instrumental`;
`load_dataset` yields invariant-satisfying records whenever every record
of the loaded document satisfies the invariant, which holds in
particular for documents written by `save_dataset` from an
invariant-satisfying collection. -/
theorem C9_instr_invariant :
    (∀ (b : DatasetBuilder) (dir : String) (de di : Bool) (files : List AudioFileInfo),
       (∀ s ∈ b.samples, instr_invariant s) →
       ∀ s ∈ (scan_directory b dir de di files).builder.samples, instr_invariant s) ∧
    (∀ (b : DatasetBuilder) (idx : Int) (enc : Option String)
       (und : Option LLMMetadata × String) (fmt : Bool),
       (∀ s ∈ b.samples, instr_invariant s) →
       ∀ s ∈ (label_sample b idx enc und fmt).builder.samples, instr_invariant s) ∧
    (∀ (b : DatasetBuilder) (flag : Bool),
       ∀ s ∈ (set_all_instrumental b flag).samples, instr_invariant s) ∧
    (∀ (b : DatasetBuilder) (tag pos : String),
       (∀ s ∈ b.samples, instr_invariant s) →
       ∀ s ∈ (set_custom_tag b tag pos).samples, instr_invariant s) ∧
    (∀ (b : DatasetBuilder) (idx : Int) (u : SampleUpdate),
       u.lyrics = none → u.language = none → u.is_instrumental = none →
       (∀ s ∈ b.samples, instr_invariant s) →
       ∀ s ∈ (update_sample b idx u).builder.samples, instr_invariant s) ∧
    (∀ (b : DatasetBuilder) (doc : SavedDataset) (fresh : Nat → String),
       (∀ d ∈ doc.samples, instr_invariant d) →
       ∀ s ∈ (load_dataset b doc fresh).1.samples, instr_invariant s) ∧
    (∀ (b : DatasetBuilder) (now : String) (dataset_name : Option String) (doc : SavedDataset),
       (∀ s ∈ b.samples, instr_invariant s) →
       (save_dataset b now dataset_name).1 = some doc →
       ∀ d ∈ doc.samples, instr_invariant d) := by
  refine ⟨?_, ?_, ?_, ?_, ?_, ?_, ?_⟩
  · intro b dir de di files hb s hs
    cases de with
    | false => exact hb s hs
    | true =>
      cases di with
      | false => exact hb s hs
      | true =>
        by_cases hfe : files.isEmpty
        · rw [scan_directory] at hs
          simp [hfe] at hs
        · rw [(scan_directory_samples b dir files (by simpa using hfe)).2,
            List.mem_map] at hs
          obtain ⟨f, _, rfl⟩ := hs
          exact scan_sample_invariant b.metadata f
  · intro b idx enc und fmt hb s hs
    rcases label_sample_spec b idx enc und fmt with
      ⟨_, heq⟩ | ⟨_, _, heq⟩ | ⟨_, _, _, heq⟩ | ⟨_, _, md, _, heq⟩ <;> rw [heq] at hs
    · exact hb s hs
    · exact hb s hs
    · exact hb s hs
    · rcases List.mem_or_eq_of_mem_set hs with h | rfl
      · exact hb s h
      · exact commit_sample_invariant _ md fmt
  · intro b flag s hs
    rw [set_all_instrumental, List.mem_map] at hs
    obtain ⟨x, _, rfl⟩ := hs
    cases flag with
    | true =>
        unfold instr_invariant
        intro _
        exact ⟨rfl, rfl⟩
    | false =>
        unfold instr_invariant
        intro h
        cases h
  · intro b tag pos hb s hs
    rw [set_custom_tag, List.mem_map] at hs
    obtain ⟨x, hx, rfl⟩ := hs
    unfold instr_invariant
    intro h
    exact hb x hx h
  · intro b idx u hl hg hi hb s hs
    by_cases hidx : idx < 0 ∨ idx ≥ (b.samples.length : Int)
    · rw [update_sample, if_pos hidx] at hs
      exact hb s hs
    · rw [update_sample, if_neg hidx] at hs
      rcases List.mem_or_eq_of_mem_set hs with h | rfl
      · exact hb s h
      · obtain ⟨h1, h2, h3⟩ := applyUpdate_untouched (b.samples.getD idx.toNat {}) u hl hg hi
        have hlt : idx.toNat < b.samples.length := by
          push_neg at hidx
          exact (Int.toNat_lt hidx.1).mpr hidx.2
        have horig : b.samples.getD idx.toNat {} ∈ b.samples := by
          rw [List.getD_eq_getElem?_getD, List.getElem?_eq_getElem hlt, Option.getD_some]
          exact List.getElem_mem hlt
        unfold instr_invariant
        intro h
        rw [h3] at h
        rw [h1, h2]
        exact hb _ horig h
  · intro b doc fresh hdoc s hs
    obtain ⟨d, hd, j, rfl⟩ := mem_load_samples fresh 0 doc.samples s hs
    exact from_dict_invariant _ d (hdoc d hd)
  · intro b now dataset_name doc hb hsave d hd
    rw [save_dataset_doc b now dataset_name doc hsave, List.mem_map] at hd
    obtain ⟨s, hsm, rfl⟩ := hd
    unfold instr_invariant
    intro h
    exact hb s hsm h

/-- C9 amended-claim witness: the invariant holds for the record of the
concrete dataset after a bulk `set_all_instrumental true`. -/
theorem C9_instr_invariant_witness :
    instr_invariant ((set_all_instrumental rockBuilder true).samples.getD 0 {}) :=
  C9_instr_invariant.2.2.1 rockBuilder true _ (by decide)

/-- C10: an out-of-range index (negative or at least the collection
size) makes `label_sample` and `update_sample` return `(none, invalid
index status)` and leave the whole builder state unchanged; the result
of `label_sample` does not depend on the engine inputs, which are never
consulted. -/
theorem C10_invalid_index (b : DatasetBuilder) (idx : Int) (enc enc2 : Option String)
    (und und2 : Option LLMMetadata × String) (fmt fmt2 : Bool) (u : SampleUpdate)
    (h : idx < 0 ∨ idx ≥ (b.samples.length : Int)) :
    label_sample b idx enc und fmt = ⟨b, none, .invalidIndex idx⟩ ∧
    (label_sample b idx enc und fmt).status.isSuccess = false ∧
    update_sample b idx u = ⟨b, none, .invalidIndex idx⟩ ∧
    label_sample b idx enc und fmt = label_sample b idx enc2 und2 fmt2 := by
  have h1 : label_sample b idx enc und fmt = ⟨b, none, .invalidIndex idx⟩ := by
    rw [label_sample, if_pos h]
  have h2 : label_sample b idx enc2 und2 fmt2 = ⟨b, none, .invalidIndex idx⟩ := by
    rw [label_sample, if_pos h]
  refine ⟨h1, ?_, ?_, h1.trans h2.symm⟩
  · rw [h1]
    rfl
  · rw [update_sample, if_pos h]

/-- C10 witness: index 5 on the one-sample concrete dataset. -/
theorem C10_invalid_index_witness :
    label_sample rockBuilder 5 none ((none : Option LLMMetadata), "e") false =
      ⟨rockBuilder, none, .invalidIndex 5⟩ ∧
    (label_sample rockBuilder 5 none ((none : Option LLMMetadata), "e") false).status.isSuccess
      = false ∧
    update_sample rockBuilder 5 {} = ⟨rockBuilder, none, .invalidIndex 5⟩ ∧
    label_sample rockBuilder 5 none ((none : Option LLMMetadata), "e") false =
      label_sample rockBuilder 5 (some "codes") (some mdEx, "ok") true :=
  C10_invalid_index rockBuilder 5 none (some "codes") (none, "e") (some mdEx, "ok")
    false true {} (Or.inr (by decide))
